import Mathlib

/-
Verification development for the MultiHeadedAttention operator of
turbo_transformers (src/turbo_transformers/layers/multi_headed_attention.cpp).

The embedding is a shallow functional model of MultiHeadedAttention::operator().
Tensors carry shape, device and nullness metadata together with symbolic
contents: every kernel invocation (MatMul, LayerNorm, softmax, ...) is recorded
as an uninterpreted expression node, so two runs produce equal outputs exactly
when the same kernels were applied to the same data.  The Concat kernel, whose
elementwise contract the dispatcher relies on for the self-attention cache, is
additionally given its contract semantics through the entry interpreter below.

Besides the numeric result the model records, per call, the ordered list of
kernel invocations (trace), the cache slots written (cacheWrites), whether the
caller output tensor was written, and the heap allocations and deletions made
by the dispatch (allocated and freed), mirroring the new and delete statements
of the source.
-/

namespace TurboMHA

/-- Symbolic tensor contents.  Each constructor mirrors one kernel of the
source file; kernel results are uninterpreted expression nodes.  Weight and
bias operands are referred to by their member names in the C++ class. -/
inductive TData where
  | external (name : String) (tag : Nat)
  | matMul (x : TData) (xT : Bool) (w : String) (wT : Bool)
  | layerNorm (x : TData) (gamma beta : String) (epsDenom : Nat)
  | addBiasTranspose (x : TData) (bias : String)
  | splitAddBiasTranspose (x : TData) (bias : String)
  | select (x : TData) (i : Nat)
  | concat (a b : TData) (axis : Nat) (aLen : Nat)
  | batchMatMul (a : TData) (aT : Bool) (b : TData) (bT : Bool) (scaleRsqrt : Option Nat)
  | maskSoftmax (scores mask : TData)
  | transposeForScore (x : TData)
  | addBias (x : TData) (bias : String)
  | addBiasLayerNorm (residual x : TData) (bias gamma beta : String) (epsDenom : Nat)
  | addInputBias (x residual : TData) (bias : String)
  deriving DecidableEq, Repr

/-- Model of core::Tensor: shape metadata, device placement, null flag and
symbolic contents. -/
structure Tensor where
  dims : List Nat
  data : TData
  devtype : Nat
  devid : Nat
  isNull : Bool
  deriving DecidableEq, Repr

/-- Mirrors core::Tensor::n_dim(). -/
def Tensor.n_dim (t : Tensor) : Nat := t.dims.length

/-- Mirrors core::Tensor::shape(i). -/
def Tensor.shape (t : Tensor) (i : Nat) : Nat := t.dims.getD i 0

/-- Mirrors kernels::common::is_same_device_ctx. -/
def is_same_device_ctx (a b : Tensor) : Bool :=
  a.devtype == b.devtype && a.devid == b.devid

/-- Model of the layer_cache argument, an unordered_map from strings to tensor
pointers.  Each recognized key is either absent from the map (none) or present
and pointing at a caller tensor (some t, where t itself may be a null tensor).
The extra field counts unrecognized keys, which contribute to map size but are
never read by the operator. -/
structure LayerCache where
  memory_keys : Option Tensor
  memory_values : Option Tensor
  self_keys : Option Tensor
  self_values : Option Tensor
  extra : Nat
  deriving DecidableEq, Repr

def slotCount : Option Tensor → Nat
  | some _ => 1
  | none => 0

/-- Mirrors layer_cache.size(). -/
def LayerCache.size (c : LayerCache) : Nat :=
  slotCount c.memory_keys + slotCount c.memory_values + slotCount c.self_keys +
    slotCount c.self_values + c.extra

/-- Liveness test of one cache slot, mirroring the loop at lines 97 to 112 of
the source: a slot is live when the key is present and the tensor is not null. -/
def liveSlot : Option Tensor → Bool
  | some t => !t.isNull
  | none => false

/-- Failure modes of the modelled call.  invalidArg models TT_ENFORCE_EQ and
TT_THROW failures; nullDeref models dereferencing the null pointer produced by
unordered_map operator[] on an absent key. -/
inductive Err where
  | invalidArg (msg : String)
  | nullDeref
  deriving DecidableEq, Repr

/-- Observable result of a successful call: the written output tensor, the
attention score returned through the caller sink (none when the caller passed a
null sink), the cache map after the call, the heap allocations and deletions
performed, and the Q, K, V tensors that the scoring stage consumed. -/
structure CallResult where
  output : Tensor
  attScore : Option Tensor
  cache : LayerCache
  allocated : List String
  freed : List String
  qUsed : Tensor
  kUsed : Tensor
  vUsed : Tensor
  deriving DecidableEq, Repr

/-- Full observable behaviour of one call: the result or error, the ordered
kernel trace, the cache slots written, and whether the caller output tensor
was written. -/
structure MHAOut where
  result : Except Err CallResult
  trace : List String
  cacheWrites : List String
  outputWritten : Bool
  deriving Repr

/-- Intermediate state handed from the dispatch (projection) stage to the
scoring stage: the q_ptr, k_ptr, v_ptr tensors, the cache after any dispatch
writes, the heap allocations made so far, the kernel trace so far, and the
cache slots written so far. -/
structure Dispatched where
  q : Tensor
  k : Tensor
  v : Tensor
  cache : LayerCache
  allocated : List String
  trace : List String
  cacheWrites : List String
  deriving DecidableEq, Repr

/-- Hard-coded LayerNorm epsilon 1e-6, encoded as the denominator 10^6.  The
value is passed literally at the kernels::LayerNorm call sites in the source;
for kernels::AddBiasLayerNorm the epsilon is not visible in src (Modelled from
the spec: the post-LayerNorm fusion also uses epsilon 1e-6). -/
def layerNormEpsDenom : Nat := 1000000

/-- Context-mode projection stage, translated from lines 114 to 225 of the
source: device checks, Q projection (with optional pre-LayerNorm), then the
memory-cache hit path (K, V read from cache, no K or V projection), the
cache-fill path (K, V projected directly into the memory cache slots), or the
cache-free path (K, V projected into call-scoped tensors). -/
def contextDispatch (key_tensor value_tensor query_tensor : Tensor)
    (layer_cache : LayerCache) (pre_layernorm is_trans_weight : Bool)
    (layer_cache_not_none memory_not_none : Bool)
    (batch_size query_seq_length key_seq_length size_per_head : Nat)
    (naHeads devtype devid : Nat) : Except Err Dispatched :=
  if is_same_device_ctx query_tensor value_tensor = true then
    if is_same_device_ctx query_tensor key_tensor = true then
      let q_out1 : TData :=
        if pre_layernorm then
          TData.matMul
            (TData.layerNorm query_tensor.data "layernorm_gamma_" "layernorm_beta_"
              layerNormEpsDenom)
            false "q_weight_" is_trans_weight
        else
          TData.matMul query_tensor.data false "q_weight_" is_trans_weight
      let traceQ : List String :=
        (if pre_layernorm then ["Copy", "LayerNorm", "MatMul(q_weight_)"]
         else ["MatMul(q_weight_)"]) ++ ["AddBiasTransposeForScore"]
      let q_out2 : Tensor :=
        { dims := [batch_size, naHeads, query_seq_length, size_per_head],
          data := TData.addBiasTranspose q_out1 "q_bias_",
          devtype := devtype, devid := devid, isNull := false }
      if memory_not_none = true then
        match layer_cache.memory_values, layer_cache.memory_keys with
        | some mv, some mk =>
            Except.ok { q := q_out2, k := mk, v := mv, cache := layer_cache,
                        allocated := [], trace := traceQ, cacheWrites := [] }
        | _, _ => Except.error Err.nullDeref
      else
        let k_out1 : TData := TData.matMul key_tensor.data false "k_weight_" is_trans_weight
        let v_out1 : TData := TData.matMul value_tensor.data false "v_weight_" is_trans_weight
        let traceKV : List String := traceQ ++ ["MatMul(k_weight_)", "MatMul(v_weight_)"]
        if layer_cache_not_none = true then
          match layer_cache.memory_keys, layer_cache.memory_values with
          | some _, some _ =>
              let mk : Tensor :=
                { dims := [batch_size, naHeads, key_seq_length, size_per_head],
                  data := TData.addBiasTranspose k_out1 "k_bias_",
                  devtype := devtype, devid := devid, isNull := false }
              let mv : Tensor :=
                { dims := [batch_size, naHeads, key_seq_length, size_per_head],
                  data := TData.addBiasTranspose v_out1 "v_bias_",
                  devtype := devtype, devid := devid, isNull := false }
              let cacheFilled : LayerCache :=
                { layer_cache with memory_keys := some mk, memory_values := some mv }
              Except.ok { q := q_out2, k := mk, v := mv,
                          cache := cacheFilled,
                          allocated := [],
                          trace := traceKV ++
                            ["AddBiasTransposeForScore", "AddBiasTransposeForScore"],
                          cacheWrites := ["memory_values", "memory_keys"] }
          | _, _ => Except.error Err.nullDeref
        else
          let k_out2 : Tensor :=
            { dims := [batch_size, naHeads, key_seq_length, size_per_head],
              data := TData.addBiasTranspose k_out1 "k_bias_",
              devtype := devtype, devid := devid, isNull := false }
          let v_out2 : Tensor :=
            { dims := [batch_size, naHeads, key_seq_length, size_per_head],
              data := TData.addBiasTranspose v_out1 "v_bias_",
              devtype := devtype, devid := devid, isNull := false }
          Except.ok { q := q_out2, k := k_out2, v := v_out2, cache := layer_cache,
                      allocated := [],
                      trace := traceKV ++
                        ["AddBiasTransposeForScore", "AddBiasTransposeForScore"],
                      cacheWrites := [] }
    else Except.error (Err.invalidArg "query_tensor and key_tensor device mismatch")
  else Except.error (Err.invalidArg "query_tensor and value_tensor device mismatch")

/-- Self-mode projection stage, translated from lines 226 to 303 of the
source: fused QKV projection (with optional pre-LayerNorm), heap-allocated Q
pointer, cache concatenation (or heap allocation) for K and V, and the
unconditional cache writeback through operator[] whenever the cache map is
non-empty.  Dereferencing an absent slot yields nullDeref, matching the null
pointer inserted by unordered_map operator[]. -/
def selfDispatch (query_tensor : Tensor) (layer_cache : LayerCache)
    (pre_layernorm is_trans_weight : Bool)
    (layer_cache_not_none self_keys_not_none self_values_not_none : Bool)
    (batch_size query_seq_length size_per_head : Nat)
    (naHeads devtype devid : Nat) : Except Err Dispatched :=
  let qkv_out1 : TData :=
    if pre_layernorm then
      TData.matMul
        (TData.layerNorm query_tensor.data "layernorm_gamma_" "layernorm_beta_"
          layerNormEpsDenom)
        false "qkv_weight_" is_trans_weight
    else
      TData.matMul query_tensor.data false "qkv_weight_" is_trans_weight
  let trace0 : List String :=
    (if pre_layernorm then ["Copy", "LayerNorm", "MatMul(qkv_weight_)"]
     else ["MatMul(qkv_weight_)"]) ++ ["SplitAddBiasTransposeForScore"]
  let qkv_out2 : TData := TData.splitAddBiasTranspose qkv_out1 "qkv_bias_"
  let qT : Tensor :=
    { dims := [batch_size, naHeads, query_seq_length, size_per_head],
      data := TData.select qkv_out2 0,
      devtype := devtype, devid := devid, isNull := false }
  let kStep : Except Err (Tensor × List String × List String) :=
    if self_keys_not_none = true then
      match layer_cache.self_keys with
      | some sk =>
          Except.ok
            ({ dims := [batch_size, naHeads, sk.shape 2 + query_seq_length, size_per_head],
               data := TData.concat sk.data (TData.select qkv_out2 1) 2 (sk.shape 2),
               devtype := devtype, devid := devid, isNull := false },
             ["Concat"], [])
      | none => Except.error Err.nullDeref
    else
      Except.ok
        ({ dims := [batch_size, naHeads, query_seq_length, size_per_head],
           data := TData.select qkv_out2 1,
           devtype := devtype, devid := devid, isNull := false },
         [], ["k_ptr"])
  match kStep with
  | Except.error e => Except.error e
  | Except.ok (kT, traceK, allocK) =>
    let vStep : Except Err (Tensor × List String × List String) :=
      if self_values_not_none = true then
        match layer_cache.self_values with
        | some sv =>
            Except.ok
              ({ dims := [batch_size, naHeads, sv.shape 2 + query_seq_length, size_per_head],
                 data := TData.concat sv.data (TData.select qkv_out2 2) 2 (sv.shape 2),
                 devtype := devtype, devid := devid, isNull := false },
               ["Concat"], [])
        | none => Except.error Err.nullDeref
      else
        Except.ok
          ({ dims := [batch_size, naHeads, query_seq_length, size_per_head],
             data := TData.select qkv_out2 2,
             devtype := devtype, devid := devid, isNull := false },
           [], ["v_ptr"])
    match vStep with
    | Except.error e => Except.error e
    | Except.ok (vT, traceV, allocV) =>
      if layer_cache_not_none = true then
        match layer_cache.self_keys, layer_cache.self_values with
        | some _, some _ =>
            let sk2 : Tensor :=
              { dims := [batch_size, naHeads, kT.shape 2, size_per_head],
                data := kT.data, devtype := devtype, devid := devid, isNull := false }
            let sv2 : Tensor :=
              { dims := [batch_size, naHeads, vT.shape 2, size_per_head],
                data := vT.data, devtype := devtype, devid := devid, isNull := false }
            let cacheWritten : LayerCache :=
              { layer_cache with self_keys := some sk2, self_values := some sv2 }
            Except.ok { q := qT, k := kT, v := vT,
                        cache := cacheWritten,
                        allocated := ["q_ptr"] ++ allocK ++ allocV,
                        trace := trace0 ++ traceK ++ traceV ++ ["Copy", "Copy"],
                        cacheWrites := ["self_keys", "self_values"] }
        | _, _ => Except.error Err.nullDeref
      else
        Except.ok { q := qT, k := kT, v := vT, cache := layer_cache,
                    allocated := ["q_ptr"] ++ allocK ++ allocV,
                    trace := trace0 ++ traceK ++ traceV, cacheWrites := [] }

/-- Scoring and output-fusion stage, translated from lines 313 to 402 of the
source: recompute key_seq_length from the K pointer, allocate a call-scoped
att_score when the caller sink is null, scaled batched scores, masked softmax,
context gather, unshape, dense projection, the three mutually exclusive
output fusions, and the deletion of the call-scoped att_score. -/
def scoreAndFuse (d : Dispatched) (query_tensor attention_mask : Tensor)
    (att_score_null post_layernorm post_add_input is_trans_weight : Bool)
    (batch_size query_seq_length hidden_size size_per_head : Nat)
    (naHeads devtype devid : Nat) : MHAOut :=
  let key_seq_length := d.k.shape 2
  let allocated := if att_score_null then d.allocated ++ ["att_score"] else d.allocated
  let attTensor : Tensor :=
    { dims := [batch_size, naHeads, query_seq_length, key_seq_length],
      data := TData.maskSoftmax
        (TData.batchMatMul d.q.data false d.k.data true (some size_per_head))
        attention_mask.data,
      devtype := devtype, devid := devid, isNull := false }
  let context_layer : TData := TData.batchMatMul attTensor.data false d.v.data false none
  let self_attr_out : TData := TData.transposeForScore context_layer
  let out0 : TData := TData.matMul self_attr_out false "dense_weight_" is_trans_weight
  let fused : TData × String :=
    if post_add_input = false then
      if post_layernorm = false then
        (TData.addBias out0 "dense_bias_", "AddBias")
      else
        (TData.addBiasLayerNorm query_tensor.data out0 "dense_bias_"
           "layernorm_gamma_" "layernorm_beta_" layerNormEpsDenom,
         "AddBiasLayerNorm")
    else
      (TData.addInputBias out0 query_tensor.data "dense_bias_", "AddInputBias")
  let freed : List String := if att_score_null then ["att_score"] else []
  { result := Except.ok
      { output := { dims := [batch_size, query_seq_length, hidden_size],
                    data := fused.1, devtype := devtype, devid := devid, isNull := false },
        attScore := if att_score_null then none else some attTensor,
        cache := d.cache, allocated := allocated, freed := freed,
        qUsed := d.q, kUsed := d.k, vUsed := d.v },
    trace := d.trace ++
      ["BatchMatMul", "ApplyMaskAndSoftmax", "BatchMatMul", "TransposeForScore",
       "MatMul(dense_weight_)", fused.2],
    cacheWrites := d.cacheWrites,
    outputWritten := true }

/-- Model of MultiHeadedAttention::operator(), translated line by line from
the source: rank and batch guards, attn_type dispatch with key_seq_length
selection, cache liveness flags, the context or self projection stage, then
the common scoring and fusion stage.  naHeads models num_attention_heads_ and
att_score_null models passing a null att_score sink. -/
def mha (naHeads : Nat) (key_tensor value_tensor query_tensor attention_mask : Tensor)
    (attn_type : String) (att_score_null : Bool) (layer_cache : LayerCache)
    (pre_layernorm post_layernorm post_add_input is_trans_weight : Bool) : MHAOut :=
  if key_tensor.n_dim = 3 then
    if value_tensor.n_dim = 3 then
      if query_tensor.n_dim = 3 then
        if key_tensor.shape 0 = value_tensor.shape 0 then
          let batch_size := query_tensor.shape 0
          let query_seq_length := query_tensor.shape 1
          let keySeq : Except Err Nat :=
            if attn_type = "context" then Except.ok (key_tensor.shape 1)
            else if attn_type = "self" then Except.ok query_seq_length
            else Except.error (Err.invalidArg "attn_type should be context or self.")
          match keySeq with
          | Except.error e =>
              { result := Except.error e, trace := [], cacheWrites := [],
                outputWritten := false }
          | Except.ok key_seq_length =>
            let hidden_size := query_tensor.shape 2
            let size_per_head := hidden_size / naHeads
            let devtype := query_tensor.devtype
            let devid := query_tensor.devid
            let layer_cache_not_none := decide (0 < layer_cache.size)
            let memory_keys_not_none := liveSlot layer_cache.memory_keys
            let memory_values_not_none := liveSlot layer_cache.memory_values
            let self_keys_not_none := liveSlot layer_cache.self_keys
            let self_values_not_none := liveSlot layer_cache.self_values
            let memory_not_none := memory_values_not_none && memory_keys_not_none
            if attn_type = "context" then
              match contextDispatch key_tensor value_tensor query_tensor layer_cache
                  pre_layernorm is_trans_weight layer_cache_not_none memory_not_none
                  batch_size query_seq_length key_seq_length size_per_head
                  naHeads devtype devid with
              | Except.error e =>
                  { result := Except.error e, trace := [], cacheWrites := [],
                    outputWritten := false }
              | Except.ok d =>
                  scoreAndFuse d query_tensor attention_mask att_score_null
                    post_layernorm post_add_input is_trans_weight
                    batch_size query_seq_length hidden_size size_per_head
                    naHeads devtype devid
            else if attn_type = "self" then
              match selfDispatch query_tensor layer_cache pre_layernorm is_trans_weight
                  layer_cache_not_none self_keys_not_none self_values_not_none
                  batch_size query_seq_length size_per_head naHeads devtype devid with
              | Except.error e =>
                  { result := Except.error e, trace := [], cacheWrites := [],
                    outputWritten := false }
              | Except.ok d =>
                  scoreAndFuse d query_tensor attention_mask att_score_null
                    post_layernorm post_add_input is_trans_weight
                    batch_size query_seq_length hidden_size size_per_head
                    naHeads devtype devid
            else
              { result := Except.error
                  (Err.invalidArg "attn_type is not support in MultiHeadedAttention"),
                trace := [], cacheWrites := [], outputWritten := false }
        else
          { result := Except.error
              (Err.invalidArg "key_tensor and value_tensor first dim mismatch"),
            trace := [], cacheWrites := [], outputWritten := false }
      else
        { result := Except.error (Err.invalidArg "query_tensor should have rank 3"),
          trace := [], cacheWrites := [], outputWritten := false }
    else
      { result := Except.error (Err.invalidArg "value_tensor should have rank 3"),
        trace := [], cacheWrites := [], outputWritten := false }
  else
    { result := Except.error (Err.invalidArg "key_tensor should have rank 3"),
      trace := [], cacheWrites := [], outputWritten := false }

/-- Symbolic scalar value of one tensor entry. -/
inductive EVal where
  | raw (d : TData) (idx : List Nat)
  deriving DecidableEq, Repr

/-- Entry interpreter.  Modelled from the spec: the Concat kernel contract
(shapes agree on other axes; the output holds the first operand at the leading
positions of the concatenation axis and the second operand after them).  All
other kernels remain uninterpreted, so their entries are opaque. -/
def entryAt : TData → List Nat → EVal
  | TData.concat a b ax aLen, i0 :: i1 :: i2 :: rest =>
      if ax = 2 then
        if i2 < aLen then entryAt a (i0 :: i1 :: i2 :: rest)
        else entryAt b (i0 :: i1 :: (i2 - aLen) :: rest)
      else EVal.raw (TData.concat a b ax aLen) (i0 :: i1 :: i2 :: rest)
  | d, idx => EVal.raw d idx

/-- Entry of a tensor at a multi-index, through the Concat interpretation. -/
def Tensor.entry (t : Tensor) (idx : List Nat) : EVal := entryAt t.data idx

/-- True exactly when the call failed with an invalidArg error (a TT_ENFORCE
or TT_THROW failure). -/
def MHAOut.failedInvalidArg (o : MHAOut) : Bool :=
  match o.result with
  | Except.error (Err.invalidArg _) => true
  | _ => false

/-- True exactly when the call completed without an error. -/
def exceptIsOk (e : Except Err CallResult) : Bool :=
  match e with
  | Except.ok _ => true
  | Except.error _ => false


/-- Concrete input tensor builder used by witnesses and counterexamples. -/
def extT (name : String) (dims : List Nat) : Tensor :=
  { dims := dims, data := TData.external name 0, devtype := 0, devid := 0, isNull := false }

/-- Concrete null tensor (a present cache slot whose tensor is null). -/
def tNull : Tensor :=
  { dims := [], data := TData.external "null" 0, devtype := 0, devid := 0, isNull := true }

def tKey : Tensor := extT "key" [1, 3, 4]

def tValue : Tensor := extT "value" [1, 3, 4]

def tQuery : Tensor := extT "query" [1, 2, 4]

def tMask : Tensor := extT "mask" [1, 1, 3]

def emptyCache : LayerCache :=
  { memory_keys := none, memory_values := none, self_keys := none,
    self_values := none, extra := 0 }

def memKeyLive : Tensor := extT "cachedMemK" [1, 2, 3, 2]

def memValLive : Tensor := extT "cachedMemV" [1, 2, 3, 2]

def selfKeyLive : Tensor := extT "cachedSelfK" [1, 2, 5, 2]

def selfValLive : Tensor := extT "cachedSelfV" [1, 2, 5, 2]

/-- Concrete cache with both memory slots live (context cache-hit fixture). -/
def cacheHitCtx : LayerCache :=
  { emptyCache with memory_keys := some memKeyLive, memory_values := some memValLive }

/-- Concrete cache with both self slots live (self incremental fixture). -/
def liveSelfCache : LayerCache :=
  { emptyCache with self_keys := some selfKeyLive, self_values := some selfValLive }

/-- Concrete non-paired cache: memory_keys live, memory_values present but
null. -/
def cacheNonPaired : LayerCache :=
  { emptyCache with memory_keys := some memKeyLive, memory_values := some tNull }

/-- Concrete garbage key tensor with unrelated contents, device and trailing
dims (guard-passing: rank 3, first dim matching gValue). -/
def gKey : Tensor :=
  { dims := [2, 9, 7], data := TData.external "garbage1" 3, devtype := 5, devid := 6,
    isNull := true }

def gValue : Tensor :=
  { dims := [2, 1, 1], data := TData.external "garbage2" 4, devtype := 7, devid := 8,
    isNull := false }

/-- Fallback CallResult for result extraction in witnesses. -/
def dfltRes : CallResult :=
  { output := tNull, attScore := none, cache := emptyCache, allocated := [],
    freed := [], qUsed := tNull, kUsed := tNull, vUsed := tNull }

def resultOr (o : Except Err CallResult) (dflt : CallResult) : CallResult :=
  match o with
  | Except.ok r => r
  | Except.error _ => dflt

/-- Concrete successful self-mode run with a null att_score sink, used by the
C8 witness. -/
def c8run : MHAOut :=
  mha 2 tKey tValue tQuery tMask "self" true emptyCache false false false false

def c8res : CallResult := resultOr c8run.result dfltRes

/-- C7: for every call whose attn_type is neither context nor self, the call
fails with an InvalidArgument error; at that point no kernel has run, no cache
slot has been written, and the output tensor is untouched. -/
theorem c7_unknown_attn_type_rejected (naHeads : Nat)
    (key_tensor value_tensor query_tensor attention_mask : Tensor)
    (attn_type : String) (att_score_null : Bool) (layer_cache : LayerCache)
    (pre_layernorm post_layernorm post_add_input is_trans_weight : Bool)
    (hc : attn_type ≠ "context") (hs : attn_type ≠ "self") :
    (mha naHeads key_tensor value_tensor query_tensor attention_mask attn_type
        att_score_null layer_cache pre_layernorm post_layernorm post_add_input
        is_trans_weight).failedInvalidArg = true ∧
    (mha naHeads key_tensor value_tensor query_tensor attention_mask attn_type
        att_score_null layer_cache pre_layernorm post_layernorm post_add_input
        is_trans_weight).trace = [] ∧
    (mha naHeads key_tensor value_tensor query_tensor attention_mask attn_type
        att_score_null layer_cache pre_layernorm post_layernorm post_add_input
        is_trans_weight).cacheWrites = [] ∧
    (mha naHeads key_tensor value_tensor query_tensor attention_mask attn_type
        att_score_null layer_cache pre_layernorm post_layernorm post_add_input
        is_trans_weight).outputWritten = false := by
  unfold mha
  split_ifs with h1 h2 h3 h4 <;>
    simp [MHAOut.failedInvalidArg, hc, hs]

/-- Witness for C7 at a concrete call with attn_type equal to foo. -/
theorem c7_unknown_attn_type_rejected_witness :
    ("foo" ≠ "context" ∧ "foo" ≠ "self") ∧
    ((mha 2 tKey tValue tQuery tMask "foo" false emptyCache false false false
        false).failedInvalidArg = true ∧
     (mha 2 tKey tValue tQuery tMask "foo" false emptyCache false false false
        false).trace = [] ∧
     (mha 2 tKey tValue tQuery tMask "foo" false emptyCache false false false
        false).cacheWrites = [] ∧
     (mha 2 tKey tValue tQuery tMask "foo" false emptyCache false false false
        false).outputWritten = false) :=
  ⟨⟨by decide, by decide⟩,
   c7_unknown_attn_type_rejected 2 tKey tValue tQuery tMask "foo" false emptyCache
     false false false false (by decide) (by decide)⟩

/-- C3: the scoring and fusion stage takes exactly one output-fusion path
after the dense projection: with post_add_input false and post_layernorm false
the output is the dense result plus dense_bias; with post_add_input false and
post_layernorm true it is LayerNorm of query plus dense result plus dense_bias
with epsilon 1e-6; with post_add_input true it is dense result plus dense_bias
plus query with no LayerNorm, regardless of post_layernorm. -/
theorem c3_output_fusion_exclusive (d : Dispatched)
    (query_tensor attention_mask : Tensor)
    (att_score_null post_layernorm post_add_input is_trans_weight : Bool)
    (batch_size query_seq_length hidden_size size_per_head naHeads devtype devid : Nat) :
    ∃ r, (scoreAndFuse d query_tensor attention_mask att_score_null post_layernorm
        post_add_input is_trans_weight batch_size query_seq_length hidden_size
        size_per_head naHeads devtype devid).result = Except.ok r ∧
      r.output.data =
        (let out0 := TData.matMul
            (TData.transposeForScore (TData.batchMatMul
              (TData.maskSoftmax
                (TData.batchMatMul d.q.data false d.k.data true (some size_per_head))
                attention_mask.data)
              false d.v.data false none))
            false "dense_weight_" is_trans_weight
         if post_add_input = false then
           if post_layernorm = false then
             TData.addBias out0 "dense_bias_"
           else
             TData.addBiasLayerNorm query_tensor.data out0 "dense_bias_"
               "layernorm_gamma_" "layernorm_beta_" layerNormEpsDenom
         else
           TData.addInputBias out0 query_tensor.data "dense_bias_") ∧
      (scoreAndFuse d query_tensor attention_mask att_score_null post_layernorm
        post_add_input is_trans_weight batch_size query_seq_length hidden_size
        size_per_head naHeads devtype devid).trace =
        d.trace ++ ["BatchMatMul", "ApplyMaskAndSoftmax", "BatchMatMul",
          "TransposeForScore", "MatMul(dense_weight_)",
          if post_add_input = false then
            (if post_layernorm = false then "AddBias" else "AddBiasLayerNorm")
          else "AddInputBias"] := by
  cases post_add_input <;> cases post_layernorm <;>
    exact ⟨_, rfl, rfl, rfl⟩

/-- C6: the self-mode dispatch heap-allocates the Q, K and V tensors (when no
cache slot captures K or V) and never reclaims them; at this concrete call the
allocation list holds q_ptr, k_ptr and v_ptr while the freed list is empty, so
the claimed reclamation before return does not happen. -/
theorem c6_self_mode_heap_tensors_leak :
    ∃ r, (mha 2 tKey tValue tQuery tMask "self" false emptyCache false false
        false false).result = Except.ok r ∧
      r.allocated = ["q_ptr", "k_ptr", "v_ptr"] ∧ r.freed = [] :=
  ⟨_, rfl, rfl, rfl⟩

/-- Counterexample to C4: a context-mode call whose cache map has memory_keys
live but memory_values present and null is not rejected; it completes
successfully and refills both memory cache slots. -/
theorem c4_counterexample :
    exceptIsOk (mha 2 tKey tValue tQuery tMask "context" false
        { emptyCache with memory_keys := some memKeyLive, memory_values := some tNull }
        false false false false).result = true ∧
    (mha 2 tKey tValue tQuery tMask "context" false
        { emptyCache with memory_keys := some memKeyLive, memory_values := some tNull }
        false false false false).cacheWrites = ["memory_values", "memory_keys"] :=
  ⟨rfl, rfl⟩

/-- Counterexample to C5: a self-mode call whose non-empty cache map does not
carry the self_keys and self_values slots does not leave the cache unchanged;
it dereferences the null pointer that operator[] inserts for the missing slot. -/
theorem c5_counterexample :
    (mha 2 tKey tValue tQuery tMask "self" false
        { emptyCache with memory_keys := some memKeyLive }
        false false false false).result = Except.error Err.nullDeref :=
  rfl

/-- Counterexample to C9: a call whose num_attention_heads (2) does not divide
the hidden size (5) is not rejected; it completes successfully with a
truncated size_per_head. -/
theorem c9_counterexample :
    exceptIsOk (mha 2 (extT "key" [1, 3, 5]) (extT "value" [1, 3, 5])
        (extT "query" [1, 2, 5]) tMask "context" false emptyCache
        false false false false).result = true :=
  rfl

/-- Claim C9 amended: the operator performs no divisibility check on the head
count; size_per_head is the truncating quotient of the hidden size by
num_attention_heads and the call proceeds normally, as witnessed by the Q
tensor used by scoring having head dim hidden / heads. -/
theorem c9_amended_truncated_size_per_head (naHeads : Nat)
    (key_tensor value_tensor query_tensor attention_mask : Tensor)
    (att_score_null pre_layernorm post_layernorm post_add_input is_trans_weight : Bool)
    (hk : key_tensor.n_dim = 3) (hv : value_tensor.n_dim = 3)
    (hq : query_tensor.n_dim = 3) (hb : key_tensor.shape 0 = value_tensor.shape 0) :
    ∃ r, (mha naHeads key_tensor value_tensor query_tensor attention_mask "self"
        att_score_null emptyCache pre_layernorm post_layernorm post_add_input
        is_trans_weight).result = Except.ok r ∧
      r.qUsed.dims = [query_tensor.shape 0, naHeads, query_tensor.shape 1,
        query_tensor.shape 2 / naHeads] := by
  simp only [mha, hk, hv, hq, hb, eq_self_iff_true, if_true, reduceIte,
    emptyCache, liveSlot, LayerCache.size, slotCount, selfDispatch, scoreAndFuse]
  exact ⟨_, rfl, rfl⟩

/-- Witness for the amended C9 at hidden size 5 and 2 heads: the call succeeds
with the truncated head dim 2. -/
theorem c9_amended_truncated_size_per_head_witness :
    ∃ r, (mha 2 (extT "key" [1, 3, 5]) (extT "value" [1, 3, 5])
        (extT "query" [1, 2, 5]) tMask "self" false emptyCache false false false
        false).result = Except.ok r ∧
      r.qUsed.dims = [1, 2, 2, 2] :=
  c9_amended_truncated_size_per_head 2 (extT "key" [1, 3, 5]) (extT "value" [1, 3, 5])
    (extT "query" [1, 2, 5]) tMask false false false false false rfl rfl rfl rfl

/-- Claim C4 amended: a call whose cache map has memory_keys live but
memory_values not live, or vice versa, is not rejected: no pairing check
exists and no InvariantViolation error is raised.  In context mode the call
takes the cache-miss branch: when both memory slots are present in the map
(one live, the other present but null, in either direction) it completes
successfully, reprojecting K and V into both memory slots and overwriting
them; when the non-live slot is absent from the map the writeback instead
dereferences the null pointer inserted by operator[]. -/
theorem c4_amended_nonpaired_memory_proceeds (naHeads : Nat)
    (key_tensor value_tensor query_tensor attention_mask : Tensor)
    (layer_cache : LayerCache)
    (att_score_null pre_layernorm post_layernorm post_add_input is_trans_weight : Bool)
    (hk : key_tensor.n_dim = 3) (hv : value_tensor.n_dim = 3)
    (hq : query_tensor.n_dim = 3) (hb : key_tensor.shape 0 = value_tensor.shape 0)
    (hdv : is_same_device_ctx query_tensor value_tensor = true)
    (hdk : is_same_device_ctx query_tensor key_tensor = true)
    (hnp : liveSlot layer_cache.memory_keys ≠ liveSlot layer_cache.memory_values) :
    (∀ mk mv, layer_cache.memory_keys = some mk →
      layer_cache.memory_values = some mv →
      ∃ r, (mha naHeads key_tensor value_tensor query_tensor attention_mask "context"
          att_score_null layer_cache pre_layernorm post_layernorm post_add_input
          is_trans_weight).result = Except.ok r ∧
        (mha naHeads key_tensor value_tensor query_tensor attention_mask "context"
          att_score_null layer_cache pre_layernorm post_layernorm post_add_input
          is_trans_weight).cacheWrites = ["memory_values", "memory_keys"] ∧
        r.cache.memory_keys = some
          { dims := [query_tensor.shape 0, naHeads, key_tensor.shape 1,
              query_tensor.shape 2 / naHeads],
            data := TData.addBiasTranspose
              (TData.matMul key_tensor.data false "k_weight_" is_trans_weight) "k_bias_",
            devtype := query_tensor.devtype, devid := query_tensor.devid,
            isNull := false } ∧
        r.cache.memory_values = some
          { dims := [query_tensor.shape 0, naHeads, key_tensor.shape 1,
              query_tensor.shape 2 / naHeads],
            data := TData.addBiasTranspose
              (TData.matMul value_tensor.data false "v_weight_" is_trans_weight) "v_bias_",
            devtype := query_tensor.devtype, devid := query_tensor.devid,
            isNull := false }) ∧
    ((layer_cache.memory_keys = none ∨ layer_cache.memory_values = none) →
      (mha naHeads key_tensor value_tensor query_tensor attention_mask "context"
        att_score_null layer_cache pre_layernorm post_layernorm post_add_input
        is_trans_weight).result = Except.error Err.nullDeref) := by
  refine ⟨?_, ?_⟩
  · intro mk mv hmk hmv
    have hsz : decide (0 < layer_cache.size) = true := by
      simp only [decide_eq_true_eq, LayerCache.size, hmk, hmv, slotCount]
      omega
    rw [hmk, hmv] at hnp
    cases hNk : mk.isNull <;> cases hNv : mv.isNull
    · exact absurd (by simp [liveSlot, hNk, hNv]) hnp
    · simp only [mha, contextDispatch, hk, hv, hq, hb, hdv, hdk, hmk, hmv, hNk, hNv,
        eq_self_iff_true, if_true, reduceIte, liveSlot, Bool.not_true, Bool.not_false,
        Bool.and_false, Bool.false_and, hsz]
      exact ⟨_, rfl, rfl, rfl, rfl⟩
    · simp only [mha, contextDispatch, hk, hv, hq, hb, hdv, hdk, hmk, hmv, hNk, hNv,
        eq_self_iff_true, if_true, reduceIte, liveSlot, Bool.not_true, Bool.not_false,
        Bool.and_false, Bool.false_and, hsz]
      exact ⟨_, rfl, rfl, rfl, rfl⟩
    · exact absurd (by simp [liveSlot, hNk, hNv]) hnp
  · intro habs
    rcases habs with hkn | hvn
    · rcases hv0 : layer_cache.memory_values with _ | mv
      · simp [hkn, hv0, liveSlot] at hnp
      · have hsz : decide (0 < layer_cache.size) = true := by
          simp only [decide_eq_true_eq, LayerCache.size, hv0, slotCount]
          omega
        simp only [mha, contextDispatch, hk, hv, hq, hb, hdv, hdk, eq_self_iff_true,
          if_true, reduceIte, hkn, hv0, liveSlot, Bool.and_false, Bool.false_and,
          hsz] <;> rfl
    · rcases hk0 : layer_cache.memory_keys with _ | mk
      · simp [hk0, hvn, liveSlot] at hnp
      · have hsz : decide (0 < layer_cache.size) = true := by
          simp only [decide_eq_true_eq, LayerCache.size, hk0, slotCount]
          omega
        simp only [mha, contextDispatch, hk, hv, hq, hb, hdv, hdk, eq_self_iff_true,
          if_true, reduceIte, hk0, hvn, liveSlot, Bool.and_false, Bool.false_and,
          hsz] <;> rfl

/-- Witness for the amended C4 at a concrete cache with memory_keys live and
memory_values present but null. -/
theorem c4_amended_nonpaired_memory_proceeds_witness :
    (∀ mk mv, cacheNonPaired.memory_keys = some mk →
      cacheNonPaired.memory_values = some mv →
      ∃ r, (mha 2 tKey tValue tQuery tMask "context" false cacheNonPaired
          false false false false).result = Except.ok r ∧
        (mha 2 tKey tValue tQuery tMask "context" false cacheNonPaired
          false false false false).cacheWrites = ["memory_values", "memory_keys"] ∧
        r.cache.memory_keys = some
          { dims := [1, 2, 3, 2],
            data := TData.addBiasTranspose
              (TData.matMul (TData.external "key" 0) false "k_weight_" false) "k_bias_",
            devtype := 0, devid := 0, isNull := false } ∧
        r.cache.memory_values = some
          { dims := [1, 2, 3, 2],
            data := TData.addBiasTranspose
              (TData.matMul (TData.external "value" 0) false "v_weight_" false) "v_bias_",
            devtype := 0, devid := 0, isNull := false }) ∧
    ((cacheNonPaired.memory_keys = none ∨ cacheNonPaired.memory_values = none) →
      (mha 2 tKey tValue tQuery tMask "context" false cacheNonPaired
        false false false false).result = Except.error Err.nullDeref) :=
  c4_amended_nonpaired_memory_proceeds 2 tKey tValue tQuery tMask cacheNonPaired
    false false false false false rfl rfl rfl rfl rfl rfl (by decide)

/-- Claim C1: in a context-mode call with both memory cache slots live, the K
and V tensors consumed by scoring are the cached tensors, no K or V projection
kernel runs, the cache is returned unchanged, and the whole observable
behaviour is identical when the contents of key_tensor and value_tensor are
replaced by arbitrary data. -/
theorem c1_context_cache_hit_uses_cached_kv (naHeads : Nat)
    (key_tensor value_tensor query_tensor attention_mask : Tensor) (dk dv : TData)
    (layer_cache : LayerCache) (mk mv : Tensor)
    (att_score_null pre_layernorm post_layernorm post_add_input is_trans_weight : Bool)
    (hk : key_tensor.n_dim = 3) (hv : value_tensor.n_dim = 3)
    (hq : query_tensor.n_dim = 3) (hb : key_tensor.shape 0 = value_tensor.shape 0)
    (hdv : is_same_device_ctx query_tensor value_tensor = true)
    (hdk : is_same_device_ctx query_tensor key_tensor = true)
    (hmk : layer_cache.memory_keys = some mk) (hmkL : mk.isNull = false)
    (hmv : layer_cache.memory_values = some mv) (hmvL : mv.isNull = false) :
    mha naHeads key_tensor value_tensor query_tensor attention_mask "context"
        att_score_null layer_cache pre_layernorm post_layernorm post_add_input
        is_trans_weight =
      mha naHeads { key_tensor with data := dk } { value_tensor with data := dv }
        query_tensor attention_mask "context" att_score_null layer_cache
        pre_layernorm post_layernorm post_add_input is_trans_weight ∧
    "MatMul(k_weight_)" ∉ (mha naHeads key_tensor value_tensor query_tensor
        attention_mask "context" att_score_null layer_cache pre_layernorm
        post_layernorm post_add_input is_trans_weight).trace ∧
    "MatMul(v_weight_)" ∉ (mha naHeads key_tensor value_tensor query_tensor
        attention_mask "context" att_score_null layer_cache pre_layernorm
        post_layernorm post_add_input is_trans_weight).trace ∧
    ∀ r, (mha naHeads key_tensor value_tensor query_tensor attention_mask "context"
        att_score_null layer_cache pre_layernorm post_layernorm post_add_input
        is_trans_weight).result = Except.ok r →
      r.kUsed = mk ∧ r.vUsed = mv ∧ r.cache = layer_cache := by
  have hliveK : liveSlot layer_cache.memory_keys = true := by
    simp [liveSlot, hmk, hmkL]
  have hliveV : liveSlot layer_cache.memory_values = true := by
    simp [liveSlot, hmv, hmvL]
  cases pre_layernorm <;> cases post_layernorm <;> cases post_add_input <;>
    simp [mha, contextDispatch, scoreAndFuse, Tensor.n_dim, Tensor.shape,
      is_same_device_ctx, hk, hv, hq, hb, hdv, hdk, hmk, hmv, hliveK, hliveV] <;>
    simp_all [Tensor.n_dim, Tensor.shape, is_same_device_ctx]

/-- Witness for C1 at a concrete cache-hit call with garbage K and V data. -/
theorem c1_context_cache_hit_uses_cached_kv_witness :
    mha 2 tKey tValue tQuery tMask "context" false cacheHitCtx false false false
        false =
      mha 2 { tKey with data := TData.external "garbage1" 3 }
        { tValue with data := TData.external "garbage2" 4 } tQuery tMask "context"
        false cacheHitCtx false false false false ∧
    "MatMul(k_weight_)" ∉ (mha 2 tKey tValue tQuery tMask "context" false
        cacheHitCtx false false false false).trace ∧
    "MatMul(v_weight_)" ∉ (mha 2 tKey tValue tQuery tMask "context" false
        cacheHitCtx false false false false).trace ∧
    ∀ r, (mha 2 tKey tValue tQuery tMask "context" false cacheHitCtx false false
        false false).result = Except.ok r →
      r.kUsed = memKeyLive ∧ r.vUsed = memValLive ∧ r.cache = cacheHitCtx :=
  c1_context_cache_hit_uses_cached_kv 2 tKey tValue tQuery tMask
    (TData.external "garbage1" 3) (TData.external "garbage2" 4) cacheHitCtx
    memKeyLive memValLive false false false false false rfl rfl rfl rfl rfl rfl
    rfl rfl rfl rfl

/-- Claim C10: a self-mode call that passes the guard depends on key_tensor
and value_tensor only through the guard itself; two runs whose key and value
tensors differ in contents, devices and remaining shape dims are identical in
every observable. -/
theorem c10_self_mode_independent_of_key_value (naHeads : Nat)
    (k1 v1 k2 v2 query_tensor attention_mask : Tensor) (layer_cache : LayerCache)
    (att_score_null pre_layernorm post_layernorm post_add_input is_trans_weight : Bool)
    (hk1 : k1.n_dim = 3) (hv1 : v1.n_dim = 3) (hb1 : k1.shape 0 = v1.shape 0)
    (hk2 : k2.n_dim = 3) (hv2 : v2.n_dim = 3) (hb2 : k2.shape 0 = v2.shape 0) :
    mha naHeads k1 v1 query_tensor attention_mask "self" att_score_null layer_cache
        pre_layernorm post_layernorm post_add_input is_trans_weight =
      mha naHeads k2 v2 query_tensor attention_mask "self" att_score_null layer_cache
        pre_layernorm post_layernorm post_add_input is_trans_weight := by
  simp only [mha, hk1, hv1, hb1, hk2, hv2, hb2, eq_self_iff_true, if_true,
    String.reduceEq, reduceIte]

/-- Witness for C10 at concrete wildly different key and value tensors. -/
theorem c10_self_mode_independent_of_key_value_witness :
    mha 2 tKey tValue tQuery tMask "self" false emptyCache false false false
        false =
      mha 2 gKey gValue tQuery tMask "self" false emptyCache false false false
        false :=
  c10_self_mode_independent_of_key_value 2 tKey tValue gKey gValue tQuery tMask
    emptyCache false false false false false rfl rfl rfl rfl rfl rfl

/-- Claim C2: a self-mode call with both self cache slots live of cached
length L grows both slots to length L plus the query length, and the first L
positions along axis 2 of the written-back keys and values equal the pre-call
cached keys and values exactly. -/
theorem c2_self_cache_growth_preserves_prefix (naHeads : Nat)
    (key_tensor value_tensor query_tensor attention_mask : Tensor)
    (layer_cache : LayerCache) (sk sv : Tensor) (L : Nat)
    (att_score_null pre_layernorm post_layernorm post_add_input is_trans_weight : Bool)
    (hk : key_tensor.n_dim = 3) (hv : value_tensor.n_dim = 3)
    (hq : query_tensor.n_dim = 3) (hb : key_tensor.shape 0 = value_tensor.shape 0)
    (hsk : layer_cache.self_keys = some sk) (hskL : sk.isNull = false)
    (hsv : layer_cache.self_values = some sv) (hsvL : sv.isNull = false)
    (hLk : sk.shape 2 = L) (hLv : sv.shape 2 = L) :
    ∃ r sk2 sv2, (mha naHeads key_tensor value_tensor query_tensor attention_mask
        "self" att_score_null layer_cache pre_layernorm post_layernorm
        post_add_input is_trans_weight).result = Except.ok r ∧
      r.cache.self_keys = some sk2 ∧ r.cache.self_values = some sv2 ∧
      sk2.shape 2 = L + query_tensor.shape 1 ∧
      sv2.shape 2 = L + query_tensor.shape 1 ∧
      (∀ b h s dd, s < L → sk2.entry [b, h, s, dd] = sk.entry [b, h, s, dd]) ∧
      (∀ b h s dd, s < L → sv2.entry [b, h, s, dd] = sv.entry [b, h, s, dd]) := by
  have hsz : decide (0 < layer_cache.size) = true := by
    simp only [decide_eq_true_eq, LayerCache.size, hsk, hsv, slotCount]
    omega
  have hliveK : liveSlot (some sk) = true := by simp [liveSlot, hskL]
  have hliveV : liveSlot (some sv) = true := by simp [liveSlot, hsvL]
  simp only [mha, selfDispatch, String.reduceEq, reduceIte, hk, hv, hq, hb,
    eq_self_iff_true, if_true, hsk, hsv, hliveK, hliveV, hsz]
  refine ⟨_, _, _, rfl, rfl, rfl, ?_, ?_, ?_, ?_⟩
  · simp only [Tensor.shape, List.getD_eq_getElem?_getD] at hLk
    simp [Tensor.shape]
    exact hLk
  · simp only [Tensor.shape, List.getD_eq_getElem?_getD] at hLv
    simp [Tensor.shape]
    exact hLv
  · intro b h s dd hs
    simp [Tensor.entry, entryAt, hLk, hs]
  · intro b h s dd hs
    simp [Tensor.entry, entryAt, hLv, hs]

/-- Witness for C2 at a concrete live self cache of length 5 and two query
tokens. -/
theorem c2_self_cache_growth_preserves_prefix_witness :
    ∃ r sk2 sv2, (mha 2 tKey tValue tQuery tMask "self" false liveSelfCache
        false false false false).result = Except.ok r ∧
      r.cache.self_keys = some sk2 ∧ r.cache.self_values = some sv2 ∧
      sk2.shape 2 = 5 + tQuery.shape 1 ∧
      sv2.shape 2 = 5 + tQuery.shape 1 ∧
      (∀ b h s dd, s < 5 → sk2.entry [b, h, s, dd] = selfKeyLive.entry [b, h, s, dd]) ∧
      (∀ b h s dd, s < 5 → sv2.entry [b, h, s, dd] = selfValLive.entry [b, h, s, dd]) :=
  c2_self_cache_growth_preserves_prefix 2 tKey tValue tQuery tMask liveSelfCache
    selfKeyLive selfValLive 5 false false false false false rfl rfl rfl rfl rfl
    rfl rfl rfl rfl rfl

/-- Helper: the attention score part of the scoring stage contract, proved
once on scoreAndFuse and lifted to the full operator in the C8 theorem. -/
theorem scoreAndFuse_attScore (d : Dispatched) (query_tensor attention_mask : Tensor)
    (att_score_null post_layernorm post_add_input is_trans_weight : Bool)
    (batch_size query_seq_length hidden_size size_per_head naHeads devtype devid : Nat)
    (r : CallResult)
    (h : (scoreAndFuse d query_tensor attention_mask att_score_null post_layernorm
        post_add_input is_trans_weight batch_size query_seq_length hidden_size
        size_per_head naHeads devtype devid).result = Except.ok r) :
    (att_score_null = true → r.attScore = none ∧ "att_score" ∈ r.allocated ∧
      r.freed = ["att_score"]) ∧
    (att_score_null = false → r.freed = [] ∧ r.attScore = some
      { dims := [batch_size, naHeads, query_seq_length, r.kUsed.shape 2],
        data := TData.maskSoftmax
          (TData.batchMatMul r.qUsed.data false r.kUsed.data true (some size_per_head))
          attention_mask.data,
        devtype := devtype, devid := devid, isNull := false }) := by
  unfold scoreAndFuse at h
  simp only [Except.ok.injEq] at h
  subst h
  cases att_score_null <;> simp

/-- Claim C8: on every successful call, a null att_score sink means a
call-scoped score tensor was allocated and freed before return with nothing
returned through the sink, while a non-null sink receives the post-mask
softmax probabilities of shape batch by heads by query length by effective
key length. -/
theorem c8_att_score_sink_contract (naHeads : Nat)
    (key_tensor value_tensor query_tensor attention_mask : Tensor)
    (attn_type : String) (att_score_null : Bool) (layer_cache : LayerCache)
    (pre_layernorm post_layernorm post_add_input is_trans_weight : Bool)
    (r : CallResult)
    (h : (mha naHeads key_tensor value_tensor query_tensor attention_mask attn_type
        att_score_null layer_cache pre_layernorm post_layernorm post_add_input
        is_trans_weight).result = Except.ok r) :
    (att_score_null = true → r.attScore = none ∧ "att_score" ∈ r.allocated ∧
      r.freed = ["att_score"]) ∧
    (att_score_null = false → r.freed = [] ∧ r.attScore = some
      { dims := [query_tensor.shape 0, naHeads, query_tensor.shape 1, r.kUsed.shape 2],
        data := TData.maskSoftmax
          (TData.batchMatMul r.qUsed.data false r.kUsed.data true
            (some (query_tensor.shape 2 / naHeads)))
          attention_mask.data,
        devtype := query_tensor.devtype, devid := query_tensor.devid,
        isNull := false }) := by
  unfold mha at h
  split_ifs at h <;> (try dsimp only at h) <;> (try exact Except.noConfusion h)
  · rcases hX : contextDispatch key_tensor value_tensor query_tensor layer_cache
        pre_layernorm is_trans_weight (decide (0 < layer_cache.size))
        (liveSlot layer_cache.memory_values && liveSlot layer_cache.memory_keys)
        (query_tensor.shape 0) (query_tensor.shape 1) (key_tensor.shape 1)
        (query_tensor.shape 2 / naHeads) naHeads query_tensor.devtype
        query_tensor.devid with e | d
    · rw [hX] at h
      exact Except.noConfusion h
    · rw [hX] at h
      exact scoreAndFuse_attScore _ _ _ _ _ _ _ _ _ _ _ _ _ _ r h
  · rcases hX : selfDispatch query_tensor layer_cache pre_layernorm is_trans_weight
        (decide (0 < layer_cache.size)) (liveSlot layer_cache.self_keys)
        (liveSlot layer_cache.self_values) (query_tensor.shape 0)
        (query_tensor.shape 1) (query_tensor.shape 2 / naHeads) naHeads
        query_tensor.devtype query_tensor.devid with e | d
    · rw [hX] at h
      exact Except.noConfusion h
    · rw [hX] at h
      exact scoreAndFuse_attScore _ _ _ _ _ _ _ _ _ _ _ _ _ _ r h

/-- Witness for C8 at a concrete self-mode call with a null att_score sink. -/
theorem c8_att_score_sink_contract_witness :
    (true = true → c8res.attScore = none ∧ "att_score" ∈ c8res.allocated ∧
      c8res.freed = ["att_score"]) ∧
    (true = false → c8res.freed = [] ∧ c8res.attScore = some
      { dims := [tQuery.shape 0, 2, tQuery.shape 1, c8res.kUsed.shape 2],
        data := TData.maskSoftmax
          (TData.batchMatMul c8res.qUsed.data false c8res.kUsed.data true
            (some (tQuery.shape 2 / 2)))
          tMask.data,
        devtype := tQuery.devtype, devid := tQuery.devid, isNull := false }) :=
  c8_att_score_sink_contract 2 tKey tValue tQuery tMask "self" true emptyCache
    false false false false c8res rfl

/-- Helper: a cache slot with zero count is absent. -/
theorem slotCount_eq_zero_iff (o : Option Tensor) : slotCount o = 0 ↔ o = none := by
  cases o <;> simp [slotCount]

/-- Claim C5 amended: in self mode the concatenated K and V are written back
exactly when the cache map is non-empty; an empty cache map leaves every cache
entry unchanged, while a non-empty map that lacks the self_keys or self_values
slot makes the writeback dereference the null pointer inserted by operator[]
instead of leaving the cache unchanged. -/
theorem c5_amended_writeback_iff_nonempty (naHeads : Nat)
    (key_tensor value_tensor query_tensor attention_mask : Tensor)
    (layer_cache : LayerCache)
    (att_score_null pre_layernorm post_layernorm post_add_input is_trans_weight : Bool)
    (hk : key_tensor.n_dim = 3) (hv : value_tensor.n_dim = 3)
    (hq : query_tensor.n_dim = 3) (hb : key_tensor.shape 0 = value_tensor.shape 0) :
    (layer_cache.size = 0 →
      ∃ r, (mha naHeads key_tensor value_tensor query_tensor attention_mask "self"
          att_score_null layer_cache pre_layernorm post_layernorm post_add_input
          is_trans_weight).result = Except.ok r ∧ r.cache = layer_cache ∧
        (mha naHeads key_tensor value_tensor query_tensor attention_mask "self"
          att_score_null layer_cache pre_layernorm post_layernorm post_add_input
          is_trans_weight).cacheWrites = []) ∧
    ((∃ sk, layer_cache.self_keys = some sk) →
     (∃ sv, layer_cache.self_values = some sv) →
      ∃ r sk2 sv2, (mha naHeads key_tensor value_tensor query_tensor attention_mask
          "self" att_score_null layer_cache pre_layernorm post_layernorm
          post_add_input is_trans_weight).result = Except.ok r ∧
        r.cache.self_keys = some sk2 ∧ sk2.data = r.kUsed.data ∧
        r.cache.self_values = some sv2 ∧ sv2.data = r.vUsed.data ∧
        (mha naHeads key_tensor value_tensor query_tensor attention_mask "self"
          att_score_null layer_cache pre_layernorm post_layernorm post_add_input
          is_trans_weight).cacheWrites = ["self_keys", "self_values"]) ∧
    (0 < layer_cache.size →
      (layer_cache.self_keys = none ∨ layer_cache.self_values = none) →
      (mha naHeads key_tensor value_tensor query_tensor attention_mask "self"
        att_score_null layer_cache pre_layernorm post_layernorm post_add_input
        is_trans_weight).result = Except.error Err.nullDeref) := by
  refine ⟨?_, ?_, ?_⟩
  · intro h0
    have hskN : layer_cache.self_keys = none := by
      refine (slotCount_eq_zero_iff _).mp ?_
      unfold LayerCache.size at h0
      omega
    have hsvN : layer_cache.self_values = none := by
      refine (slotCount_eq_zero_iff _).mp ?_
      unfold LayerCache.size at h0
      omega
    have hszF : decide (0 < layer_cache.size) = false := by simp [h0]
    simp only [mha, selfDispatch, String.reduceEq, reduceIte, hk, hv, hq, hb,
      eq_self_iff_true, if_true, hskN, hsvN, liveSlot, hszF]
    exact ⟨_, rfl, rfl, rfl⟩
  · intro hks hvs
    obtain ⟨sk, hsk⟩ := hks
    obtain ⟨sv, hsv⟩ := hvs
    have hsz : decide (0 < layer_cache.size) = true := by
      simp only [decide_eq_true_eq, LayerCache.size, hsk, hsv, slotCount]
      omega
    cases hNk : sk.isNull <;> cases hNv : sv.isNull <;>
      simp only [mha, selfDispatch, String.reduceEq, reduceIte, hk, hv, hq, hb,
        eq_self_iff_true, if_true, hsk, hsv, hsz, liveSlot, hNk, hNv,
        Bool.not_true, Bool.not_false] <;>
      exact ⟨_, _, _, rfl, rfl, rfl, rfl, rfl, rfl⟩
  · intro hpos hnone
    have hsz : decide (0 < layer_cache.size) = true := by
      simp only [decide_eq_true_eq]
      exact hpos
    rcases hnone with hkn | hvn
    · rcases hv0 : layer_cache.self_values with _ | sv
      · simp only [mha, selfDispatch, String.reduceEq, reduceIte, hk, hv, hq, hb,
          eq_self_iff_true, if_true, hkn, hv0, liveSlot, hsz] <;> rfl
      · cases hNv : sv.isNull <;>
          simp only [mha, selfDispatch, String.reduceEq, reduceIte, hk, hv, hq, hb,
            eq_self_iff_true, if_true, hkn, hv0, liveSlot, hsz, hNv,
            Bool.not_true, Bool.not_false] <;> rfl
    · rcases hk0 : layer_cache.self_keys with _ | sk
      · simp only [mha, selfDispatch, String.reduceEq, reduceIte, hk, hv, hq, hb,
          eq_self_iff_true, if_true, hk0, hvn, liveSlot, hsz] <;> rfl
      · cases hNk : sk.isNull <;>
          simp only [mha, selfDispatch, String.reduceEq, reduceIte, hk, hv, hq, hb,
            eq_self_iff_true, if_true, hk0, hvn, liveSlot, hsz, hNk,
            Bool.not_true, Bool.not_false] <;> rfl

/-- Witness for the amended C5 at a concrete live self cache. -/
theorem c5_amended_writeback_iff_nonempty_witness :
    (liveSelfCache.size = 0 →
      ∃ r, (mha 2 tKey tValue tQuery tMask "self" false liveSelfCache false false
          false false).result = Except.ok r ∧ r.cache = liveSelfCache ∧
        (mha 2 tKey tValue tQuery tMask "self" false liveSelfCache false false
          false false).cacheWrites = []) ∧
    ((∃ sk, liveSelfCache.self_keys = some sk) →
     (∃ sv, liveSelfCache.self_values = some sv) →
      ∃ r sk2 sv2, (mha 2 tKey tValue tQuery tMask "self" false liveSelfCache
          false false false false).result = Except.ok r ∧
        r.cache.self_keys = some sk2 ∧ sk2.data = r.kUsed.data ∧
        r.cache.self_values = some sv2 ∧ sv2.data = r.vUsed.data ∧
        (mha 2 tKey tValue tQuery tMask "self" false liveSelfCache false false
          false false).cacheWrites = ["self_keys", "self_values"]) ∧
    (0 < liveSelfCache.size →
      (liveSelfCache.self_keys = none ∨ liveSelfCache.self_values = none) →
      (mha 2 tKey tValue tQuery tMask "self" false liveSelfCache false false
        false false).result = Except.error Err.nullDeref) :=
  c5_amended_writeback_iff_nonempty 2 tKey tValue tQuery tMask liveSelfCache
    false false false false false rfl rfl rfl rfl

end TurboMHA
